import Mathlib

/-!
# Verification of the real-estate analytics computational core

Shallow embedding of the computational core of the
`real-estate-analytics-investment.app` repository
(`src/financial_calculator.py`, `src/risk_assessment.py`,
`src/property_analyzer.py`) over exact rational arithmetic, together with
theorems settling the frozen specification claims.

Python floats are modelled as `ℚ`; dictionary inputs with optional keys are
modelled as structures of `Option`-typed fields, with `.getD` playing the
role of `dict.get(key, default)`; Python exceptions are modelled with
`Except PyErr`.
-/

namespace RealEstate

/-- Python runtime exceptions that the embedded code can raise. -/
inductive PyErr where
  | zeroDivisionError
  | valueError
deriving DecidableEq, Repr

/-! ## FinancialCalculator (`src/financial_calculator.py`) -/

/-- Embeds `FinancialCalculator.calculate_mortgage_payment` (lines 132-151).

`monthly_rate = interest_rate / 12`; `num_payments = loan_term_years * 12`.
If `monthly_rate == 0` the straight-line branch returns
`loan_amount / num_payments` (a Python `ZeroDivisionError` when
`num_payments` is zero).  Otherwise the annuity formula
`loan_amount * (monthly_rate * (1+monthly_rate)**n) / ((1+monthly_rate)**n - 1)`
is evaluated; Python raises `ZeroDivisionError` when the float power
`0.0 ** n` has a negative exponent or when the denominator is zero.
The function performs no input validation of its own. -/
def calculate_mortgage_payment (loan_amount interest_rate : ℚ)
    (loan_term_years : ℤ) : Except PyErr ℚ :=
  let monthly_rate := interest_rate / 12
  let num_payments : ℤ := loan_term_years * 12
  if monthly_rate = 0 then
    if num_payments = 0 then .error .zeroDivisionError
    else .ok (loan_amount / (num_payments : ℚ))
  else
    if 1 + monthly_rate = 0 ∧ num_payments < 0 then .error .zeroDivisionError
    else if (1 + monthly_rate) ^ num_payments - 1 = 0 then .error .zeroDivisionError
    else .ok (loan_amount * (monthly_rate * (1 + monthly_rate) ^ num_payments) /
      ((1 + monthly_rate) ^ num_payments - 1))

/-- One row of the amortization schedule
(`calculate_amortization_schedule`, lines 178-184). -/
structure AmortEntry where
  payment : ℤ
  paymentAmount : ℚ
  principal : ℚ
  interest : ℚ
  remainingBalance : ℚ
deriving DecidableEq, Repr

/-- The loop body of `calculate_amortization_schedule` (lines 173-184):
`k` remaining iterations, current true (unfloored) `balance`, next payment
index `idx`.  Each iteration computes
`interest = balance * monthly_rate`, `principal = payment - interest`,
`balance -= principal`, and records the entry with the balance floored at 0
(`max(0, remaining_balance)`). -/
def amortLoop (monthly_rate payment : ℚ) : ℕ → ℚ → ℤ → List AmortEntry
  | 0, _, _ => []
  | k + 1, balance, idx =>
      let interest := balance * monthly_rate
      let principal := payment - interest
      let newBalance := balance - principal
      { payment := idx
        paymentAmount := payment
        principal := principal
        interest := interest
        remainingBalance := max 0 newBalance } ::
        amortLoop monthly_rate payment k newBalance (idx + 1)

/-- Embeds `FinancialCalculator.calculate_amortization_schedule`
(lines 153-186): computes the monthly payment and iterates the balance
update for `range(1, num_payments + 1)`, i.e. `(term*12).toNat` times. -/
def calculate_amortization_schedule (loan_amount interest_rate : ℚ)
    (loan_term_years : ℤ) : Except PyErr (List AmortEntry) :=
  match calculate_mortgage_payment loan_amount interest_rate loan_term_years with
  | .error e => .error e
  | .ok monthly_payment =>
      .ok (amortLoop (interest_rate / 12) monthly_payment
        (loan_term_years * 12).toNat loan_amount 1)

/-- Result of `calculate_break_even_point`: the code returns `float('inf')`
as an in-band sentinel when the monthly net is non-positive. -/
inductive BreakEven where
  | infinite
  | months (m : ℚ)
deriving DecidableEq, Repr

/-- Embeds `FinancialCalculator.calculate_break_even_point` (lines 266-284):
`monthly_net = monthly_income - monthly_expenses`; if `monthly_net <= 0`
return `float('inf')`, else `purchase_price / monthly_net`. -/
def calculate_break_even_point (purchase_price monthly_income
    monthly_expenses : ℚ) : BreakEven :=
  let monthly_net := monthly_income - monthly_expenses
  if monthly_net ≤ 0 then .infinite
  else .months (purchase_price / monthly_net)

/-! ## RiskAssessor (`src/risk_assessment.py`)

Each input dictionary is a structure of optional fields; `Option.getD`
models `dict.get(key, default)`.  Each assessor accumulates additive
penalties from threshold rules, each triggered rule appending one factor
string, then clamps the total with `min(max(risk_score, 0), 10)`. -/

/-- Python's `str.lower()`: every character lower-cased. -/
def str_lower (s : String) : String := ⟨s.data.map Char.toLower⟩

/-- Python's `str.capitalize()` as used on the flood-risk tier strings:
first character upper-cased (the remaining characters of the tier names
`medium`, `high`, `very high` are already lower-case). -/
def str_capitalize (s : String) : String :=
  match s.data with
  | [] => ⟨[]⟩
  | c :: cs => ⟨c.toUpper :: cs⟩

/-- `market_data` keys read by `assess_market_risk`. -/
structure MarketData where
  price_volatility : Option ℚ := none
  price_trend : Option ℚ := none
  inventory_months : Option ℚ := none
  unemployment_rate : Option ℚ := none
deriving DecidableEq, Repr

/-- `location_data` keys read by `assess_location_risk`. -/
structure LocationData where
  crime_rate : Option ℚ := none
  avg_city_crime_rate : Option ℚ := none
  flood_risk : Option String := none
  school_rating : Option ℚ := none
  job_growth : Option ℚ := none
  property_tax_trend : Option ℚ := none
deriving DecidableEq, Repr

/-- `financial_data` keys read by `assess_financial_risk`. -/
structure FinancialData where
  monthly_cash_flow : Option ℚ := none
  cap_rate : Option ℚ := none
  dscr : Option ℚ := none
  loan_to_value : Option ℚ := none
  vacancy_rate : Option ℚ := none
deriving DecidableEq, Repr

/-- `property_data` keys read by `assess_property_risk`.  The Python code
only tests `is_special_use`, `recent_major_repairs` and
`has_obsolete_features` for truthiness, so they are modelled as booleans
(`recent_major_repairs` is the truthiness of the repairs list,
an absent key defaulting to the falsy `[]`). -/
structure RiskPropertyData where
  age : Option ℚ := none
  condition : Option String := none
  is_special_use : Option Bool := none
  recent_major_repairs : Option Bool := none
  has_obsolete_features : Option Bool := none
deriving DecidableEq, Repr

/-- Result shape shared by the four assessors:
`{'score': ..., 'factors': [...], 'assessment': ...}`. -/
structure RiskResult where
  score : ℚ
  factors : List String
  assessment : String
deriving DecidableEq, Repr

/-- Embeds `RiskAssessor._get_risk_level` (lines 288-305) with the
constructor thresholds `low: 3.0, medium: 6.0, high: 8.0`. -/
def get_risk_level (score : ℚ) : String :=
  if score < 3 then "low"
  else if score < 6 then "medium"
  else if score < 8 then "high"
  else "very high"

/-- `assess_market_risk` rule (lines 47-49): volatility above 0.15. -/
def volatility_rule (v : ℚ) : ℚ × List String :=
  if v > 3/20 then (2, ["High market price volatility"]) else (0, [])

/-- `assess_market_risk` rule (lines 52-54): negative price trend adds
`trend * -10`. -/
def trend_rule (t : ℚ) : ℚ × List String :=
  if t < 0 then (t * (-10), ["Negative price trend in the market"]) else (0, [])

/-- `assess_market_risk` rule (lines 57-59): inventory months above 6. -/
def inventory_rule (inv : ℚ) : ℚ × List String :=
  if inv > 6 then ((inv - 6) * (1/2), ["High inventory levels"]) else (0, [])

/-- `assess_market_risk` rule (lines 62-64): unemployment above 5. -/
def unemployment_rule (u : ℚ) : ℚ × List String :=
  if u > 5 then ((u - 5) * (3/10), ["Elevated unemployment rate"]) else (0, [])

/-- Embeds `RiskAssessor.assess_market_risk` (lines 33-73): the four rules
in source order, then `min(max(risk_score, 0), 10)`. -/
def assess_market_risk (m : MarketData) : RiskResult :=
  let r1 := volatility_rule (m.price_volatility.getD 0)
  let r2 := trend_rule (m.price_trend.getD 0)
  let r3 := inventory_rule (m.inventory_months.getD 0)
  let r4 := unemployment_rule (m.unemployment_rate.getD 0)
  let risk_score := min (max (r1.1 + r2.1 + r3.1 + r4.1) 0) 10
  { score := risk_score
    factors := r1.2 ++ r2.2 ++ r3.2 ++ r4.2
    assessment := get_risk_level risk_score }

/-- `assess_location_risk` crime rule (lines 89-92): triggered when
`crime_rate` (default 0) exceeds `avg_city_crime_rate` (default 0); the
penalty divides by `avg_city_crime_rate` with default 1, so a present
value of 0 raises `ZeroDivisionError` exactly as in Python. -/
def crime_rule (l : LocationData) : Except PyErr (ℚ × List String) :=
  if l.crime_rate.getD 0 > l.avg_city_crime_rate.getD 0 then
    if l.avg_city_crime_rate.getD 1 = 0 then .error .zeroDivisionError
    else
      .ok (min (l.crime_rate.getD 0 / l.avg_city_crime_rate.getD 1 * 2) 3,
        ["Above average crime rate"])
  else .ok (0, [])

/-- `assess_location_risk` flood tier map (line 96):
`{'medium': 2, 'high': 4, 'very high': 5}` with `.get(..., 0)`. -/
def flood_risk_map (fr : String) : ℚ :=
  if fr = "medium" then 2
  else if fr = "high" then 4
  else if fr = "very high" then 5
  else 0

/-- `assess_location_risk` flood rule (lines 95-98): any flood risk other
than `'low'` adds the tier penalty and the capitalized factor string. -/
def flood_rule (fr : String) : ℚ × List String :=
  if fr ≠ "low" then (flood_risk_map fr, [str_capitalize fr ++ " flood risk"])
  else (0, [])

/-- `assess_location_risk` school rule (lines 101-103): rating below 5
(default 7). -/
def school_rule (s : ℚ) : ℚ × List String :=
  if s < 5 then ((5 - s) * (1/2), ["Below average school ratings"]) else (0, [])

/-- `assess_location_risk` job-growth rule (lines 106-108): negative growth
adds `abs(job_growth * 3)`. -/
def job_growth_rule (g : ℚ) : ℚ × List String :=
  if g < 0 then (|g * 3|, ["Declining job market"]) else (0, [])

/-- `assess_location_risk` property-tax rule (lines 111-113): trend above
0.05. -/
def tax_trend_rule (t : ℚ) : ℚ × List String :=
  if t > 1/20 then ((t - 1/20) * 20, ["Rapidly increasing property taxes"])
  else (0, [])

/-- Embeds `RiskAssessor.assess_location_risk` (lines 75-122); can raise
`ZeroDivisionError` through the crime rule. -/
def assess_location_risk (l : LocationData) : Except PyErr RiskResult :=
  match crime_rule l with
  | .error e => .error e
  | .ok r1 =>
      let r2 := flood_rule (l.flood_risk.getD ("low"))
      let r3 := school_rule (l.school_rating.getD 7)
      let r4 := job_growth_rule (l.job_growth.getD 0)
      let r5 := tax_trend_rule (l.property_tax_trend.getD 0)
      let risk_score := min (max (r1.1 + r2.1 + r3.1 + r4.1 + r5.1) 0) 10
      .ok { score := risk_score
            factors := r1.2 ++ r2.2 ++ r3.2 ++ r4.2 ++ r5.2
            assessment := get_risk_level risk_score }

/-- `assess_financial_risk` cash-flow rule (lines 138-144): negative cash
flow adds `min(abs(cf)/200, 4)`; otherwise a flow under 200 adds 2. -/
def cash_flow_rule (cf : ℚ) : ℚ × List String :=
  if cf < 0 then (min (|cf| / 200) 4, ["Negative cash flow"])
  else if cf < 200 then (2, ["Low cash flow margin"])
  else (0, [])

/-- `assess_financial_risk` cap-rate rule (lines 147-150): rate below 0.05
(default 0.07). -/
def cap_rate_rule (c : ℚ) : ℚ × List String :=
  if c < 1/20 then ((1/20 - c) * 60, ["Below average capitalization rate"])
  else (0, [])

/-- `assess_financial_risk` DSCR rule (lines 153-156): ratio below 1.2
(default 1.2). -/
def dscr_rule (d : ℚ) : ℚ × List String :=
  if d < 6/5 then ((6/5 - d) * 10, ["Low debt service coverage ratio"])
  else (0, [])

/-- `assess_financial_risk` LTV rule (lines 159-162): ratio above 0.8
(default 0.7). -/
def ltv_rule (l : ℚ) : ℚ × List String :=
  if l > 4/5 then ((l - 4/5) * 15, ["High loan-to-value ratio"]) else (0, [])

/-- `assess_financial_risk` vacancy rule (lines 165-168): rate above 0.08
(default 0.05). -/
def vacancy_rule (v : ℚ) : ℚ × List String :=
  if v > 2/25 then ((v - 2/25) * 20, ["Above average vacancy rate"])
  else (0, [])

/-- Embeds `RiskAssessor.assess_financial_risk` (lines 124-177): the five
rules in source order, then `min(max(risk_score, 0), 10)`. -/
def assess_financial_risk (f : FinancialData) : RiskResult :=
  let r1 := cash_flow_rule (f.monthly_cash_flow.getD 0)
  let r2 := cap_rate_rule (f.cap_rate.getD (7/100))
  let r3 := dscr_rule (f.dscr.getD (6/5))
  let r4 := ltv_rule (f.loan_to_value.getD (7/10))
  let r5 := vacancy_rule (f.vacancy_rate.getD (1/20))
  let risk_score := min (max (r1.1 + r2.1 + r3.1 + r4.1 + r5.1) 0) 10
  { score := risk_score
    factors := r1.2 ++ r2.2 ++ r3.2 ++ r4.2 ++ r5.2
    assessment := get_risk_level risk_score }

/-- `assess_property_risk` age rule (lines 193-196): age above 30 adds
`min((age - 30) * 0.1, 3)`. -/
def property_age_rule (age : ℚ) : ℚ × List String :=
  if age > 30 then
    (min ((age - 30) * (1/10)) 3, ["Older property may require more maintenance"])
  else (0, [])

/-- `assess_property_risk` condition tier map (line 200):
`{'excellent': 0, 'good': 1, 'fair': 2.5, 'poor': 5, 'very poor': 7}`
with `.get(..., 0)`. -/
def condition_score_map (c : String) : ℚ :=
  if c = "excellent" then 0
  else if c = "good" then 1
  else if c = "fair" then 5/2
  else if c = "poor" then 5
  else if c = "very poor" then 7
  else 0

/-- `assess_property_risk` condition rule (lines 199-203): always adds the
tier penalty of the lower-cased condition (default `'good'`); only the
fair/poor/very-poor tiers append a factor string. -/
def condition_rule (c : String) : ℚ × List String :=
  (condition_score_map c,
    if c = "fair" ∨ c = "poor" ∨ c = "very poor" then
      ["Property in " ++ c ++ " condition"]
    else [])

/-- `assess_property_risk` special-use rule (lines 206-208). -/
def special_use_rule (b : Bool) : ℚ × List String :=
  if b then (2, ["Special use property may have limited buyer pool"])
  else (0, [])

/-- `assess_property_risk` repairs rule (lines 211-214): no recent major
repairs and age above 15. -/
def repairs_rule (recent_repairs : Bool) (age : ℚ) : ℚ × List String :=
  if ¬recent_repairs ∧ age > 15 then
    (3/2, ["No recent major repairs for aging property"])
  else (0, [])

/-- `assess_property_risk` obsolete-features rule (lines 217-219). -/
def obsolete_rule (b : Bool) : ℚ × List String :=
  if b then (1, ["Property has obsolete features"]) else (0, [])

/-- Embeds `RiskAssessor.assess_property_risk` (lines 179-228): the five
rules in source order (condition lower-cased first), then
`min(max(risk_score, 0), 10)`. -/
def assess_property_risk (p : RiskPropertyData) : RiskResult :=
  let property_age := p.age.getD 0
  let condition := str_lower (p.condition.getD ("good"))
  let r1 := property_age_rule property_age
  let r2 := condition_rule condition
  let r3 := special_use_rule (p.is_special_use.getD false)
  let r4 := repairs_rule (p.recent_major_repairs.getD false) property_age
  let r5 := obsolete_rule (p.has_obsolete_features.getD false)
  let risk_score := min (max (r1.1 + r2.1 + r3.1 + r4.1 + r5.1) 0) 10
  { score := risk_score
    factors := r1.2 ++ r2.2 ++ r3.2 ++ r4.2 ++ r5.2
    assessment := get_risk_level risk_score }

/-- Embeds `RiskAssessor._generate_recommendations` (lines 307-358).

In the source the function body assembles a local `recommendations` list
(overall-level recommendation, then market, location and financial
category recommendations) but the file ends at line 358 without any
`return` statement — and without the property-category block announced by
the docstring — so the Python function falls off the end and returns
`None`.  The assembled list is dead; the observable result is `None`. -/
def generate_recommendations (_property_data : RiskPropertyData)
    (_financial_data : FinancialData) (_location_data : LocationData)
    (_market_data : MarketData) (_market_risk _location_risk
    _financial_risk _property_risk : RiskResult) (_overall_score : ℚ) :
    Option (List String) :=
  none

/-- Result shape of `get_overall_risk_assessment` (lines 274-286).
`assessment_date` holds `datetime.now().strftime('%Y-%m-%d')`. -/
structure OverallAssessment where
  overall_score : ℚ
  risk_level : String
  market_risk : RiskResult
  location_risk : RiskResult
  financial_risk : RiskResult
  property_risk : RiskResult
  risk_factors : List String
  recommendations : Option (List String)
  assessment_date : String
deriving DecidableEq, Repr

/-- Embeds `RiskAssessor.get_overall_risk_assessment` (lines 230-286).
The current date (a `datetime.now()` read in the source) is passed as the
explicit `today` argument.  Weights are the constructor's
`risk_weights = {market: 0.3, location: 0.3, financial: 0.25, property: 0.15}`.
A `ZeroDivisionError` from `assess_location_risk` propagates. -/
def get_overall_risk_assessment (today : String) (p : RiskPropertyData)
    (f : FinancialData) (l : LocationData) (m : MarketData) :
    Except PyErr OverallAssessment :=
  let market_risk := assess_market_risk m
  match assess_location_risk l with
  | .error e => .error e
  | .ok location_risk =>
      let financial_risk := assess_financial_risk f
      let property_risk := assess_property_risk p
      let weighted_score :=
        market_risk.score * (3/10) + location_risk.score * (3/10) +
          financial_risk.score * (1/4) + property_risk.score * (3/20)
      .ok { overall_score := weighted_score
            risk_level := get_risk_level weighted_score
            market_risk := market_risk
            location_risk := location_risk
            financial_risk := financial_risk
            property_risk := property_risk
            risk_factors := market_risk.factors ++ location_risk.factors ++
              financial_risk.factors ++ property_risk.factors
            recommendations := generate_recommendations p f l m market_risk
              location_risk financial_risk property_risk weighted_score
            assessment_date := today }

/-! ## PropertyAnalyzer (`src/property_analyzer.py`) -/

/-- The constructor's `feature_weights` dictionary (lines 18-27), in
insertion order, as exact rationals. -/
def feature_weights : List (String × ℚ) :=
  [("location", 1/4), ("condition", 3/20), ("size", 3/20), ("age", 1/10),
   ("amenities", 1/10), ("schools", 1/10), ("crime_rate", 2/25),
   ("future_development", 7/100)]

/-- Membership/lookup in `feature_weights` (`feature in self.feature_weights`
followed by `self.feature_weights[feature]`). -/
def weightOf (feature : String) : Option ℚ :=
  (feature_weights.find? (fun p => p.1 == feature)).map (·.2)

/-- The pre-rounding value of `calculate_property_score` (lines 199-213):
accumulate `score * weight` and `total_weight` over the features found in
the weight table; if `total_weight > 0`, divide by `total_weight` and then
multiply by `sum(feature_weights.values()) / total_weight`. -/
def property_score_raw (feature_scores : List (String × ℚ)) : ℚ :=
  let overall_score := (feature_scores.map (fun p =>
    match weightOf p.1 with
    | some w => p.2 * w
    | none => 0)).sum
  let total_weight := (feature_scores.map (fun p =>
    match weightOf p.1 with
    | some w => w
    | none => 0)).sum
  if total_weight > 0 then
    (overall_score / total_weight) *
      ((feature_weights.map (·.2)).sum / total_weight)
  else overall_score

/-- Python's `round` (banker's rounding, round-half-to-even) to an
integer. -/
def roundHalfEven (q : ℚ) : ℤ :=
  let f := ⌊q⌋
  let r := q - f
  if r < 1/2 then f
  else if r > 1/2 then f + 1
  else if 2 ∣ f then f else f + 1

/-- Python's `round(x, 2)`. -/
def round2 (q : ℚ) : ℚ := (roundHalfEven (q * 100) : ℚ) / 100

/-- Embeds `PropertyAnalyzer.calculate_property_score` (lines 189-214):
the weighted accumulation and double normalization of
`property_score_raw`, returned as `round(overall_score, 2)`. -/
def calculate_property_score (feature_scores : List (String × ℚ)) : ℚ :=
  round2 (property_score_raw feature_scores)

/-- `property_data` keys read by `evaluate_features` and
`_calculate_location_score`.  Here `condition` is the numeric 0-10
condition score of the analyzer (unlike the textual condition of the risk
assessor). -/
structure AnalyzerPropertyData where
  location_rating : Option ℚ := none
  condition : Option ℚ := none
  square_footage : Option ℚ := none
  year_built : Option ℤ := none
  amenities : Option ℚ := none
  school_rating : Option ℚ := none
  crime_rate : Option ℚ := none
  future_development_rating : Option ℚ := none
  proximity_to_downtown : Option ℚ := none
  proximity_to_public_transport : Option ℚ := none
  proximity_to_schools : Option ℚ := none
  proximity_to_shopping : Option ℚ := none
  proximity_to_parks : Option ℚ := none
  neighborhood_rating : Option ℚ := none
  walkability_score : Option ℚ := none
deriving DecidableEq, Repr

/-- One summand of `_calculate_location_score` (line 181): a present
sub-factor contributes `(value - 5) * weight / 5`, an absent one nothing. -/
def location_factor_term (v : Option ℚ) (weight : ℚ) : ℚ :=
  match v with
  | some value => (value - 5) * weight / 5
  | none => 0

/-- Embeds `PropertyAnalyzer._calculate_location_score` (lines 154-187):
base score 5.0 adjusted by the seven weighted sub-factors in source order,
then `max(0, min(10, location_score))`. -/
def calculate_location_score (pd : AnalyzerPropertyData) : ℚ :=
  let location_score : ℚ := 5 +
    location_factor_term pd.proximity_to_downtown (3/2) +
    location_factor_term pd.proximity_to_public_transport 1 +
    location_factor_term pd.proximity_to_schools (7/10) +
    location_factor_term pd.proximity_to_shopping (7/10) +
    location_factor_term pd.proximity_to_parks (1/2) +
    location_factor_term pd.neighborhood_rating (3/2) +
    location_factor_term pd.walkability_score 1
  max 0 (min 10 location_score)

/-- Embeds `PropertyAnalyzer.evaluate_features` (lines 96-152), producing
the `feature_scores` dictionary in insertion order.  `current_year` is the
`datetime.datetime.now().year` read by the size/age block, made an
explicit argument.  A missing input key simply omits its feature. -/
def evaluate_features (current_year : ℤ) (pd : AnalyzerPropertyData) :
    List (String × ℚ) :=
  (match pd.location_rating with
   | some r => [("location", r)]
   | none => [("location", calculate_location_score pd)]) ++
  (match pd.condition with
   | some c => [("condition", c)]
   | none => []) ++
  (match pd.square_footage with
   | some s => [("size", max 0 (min 10 ((s - 500) / 250)))]
   | none => []) ++
  (match pd.year_built with
   | some yb => [("age", max 0 (min 10 (10 - ((current_year - yb : ℤ) : ℚ) / 10)))]
   | none => []) ++
  (match pd.amenities with
   | some a => [("amenities", a)]
   | none => []) ++
  (match pd.school_rating with
   | some s => [("schools", s)]
   | none => []) ++
  (match pd.crime_rate with
   | some c => [("crime_rate", max 0 (min 10 (10 - c * 100)))]
   | none => []) ++
  (match pd.future_development_rating with
   | some f => [("future_development", f)]
   | none => [])

/-! ## Helper lemmas -/

/-- The straight-line branch of the payment formula: with a zero annual
rate and a nonzero number of payments, the payment is
`loan_amount / num_payments`. -/
lemma calculate_mortgage_payment_zero_rate (loan : ℚ) (term : ℤ)
    (ht : term ≠ 0) :
    calculate_mortgage_payment loan 0 term = .ok (loan / ((term * 12 : ℤ) : ℚ)) := by
  have h12 : term * 12 ≠ 0 := by omega
  simp [calculate_mortgage_payment, h12]

/-- The annuity branch of the payment formula: with a positive rate and a
positive term the guards all pass and the formula value is returned. -/
lemma calculate_mortgage_payment_pos_rate (loan rate : ℚ) (term : ℤ)
    (ht : 0 < term) (hr : 0 < rate) :
    calculate_mortgage_payment loan rate term =
      .ok (loan * ((rate / 12) * (1 + rate / 12) ^ (term * 12 : ℤ)) /
        ((1 + rate / 12) ^ (term * 12 : ℤ) - 1)) := by
  have hr12 : rate / 12 ≠ 0 := by positivity
  have hone : (1 : ℚ) < 1 + rate / 12 := by linarith [div_pos hr (by norm_num : (0:ℚ) < 12)]
  have hn0 : term * 12 ≠ 0 := by omega
  have hcast : (term * 12 : ℤ) = (((term * 12).toNat : ℕ) : ℤ) :=
    (Int.toNat_of_nonneg (by positivity)).symm
  have hpow : (1 : ℚ) < (1 + rate / 12) ^ (term * 12 : ℤ) := by
    rw [hcast, zpow_natCast]
    exact one_lt_pow₀ hone (by omega)
  have hden : (1 + rate / 12) ^ (term * 12 : ℤ) - 1 ≠ 0 := by linarith
  have hguard : ¬(1 + rate / 12 = 0 ∧ term * 12 < 0) := by
    rintro ⟨h, -⟩; linarith
  simp only [calculate_mortgage_payment, if_neg hr12, if_neg hguard, if_neg hden]

/-- The exact balance after `k` iterations of the amortization loop
starting from balance `b`
(`balance -= payment - balance * monthly_rate`, repeated). -/
def iterBalance (r p : ℚ) : ℕ → ℚ → ℚ
  | 0, b => b
  | k + 1, b => iterBalance r p k (b - (p - b * r))

lemma amortLoop_length (r p : ℚ) :
    ∀ (k : ℕ) (b : ℚ) (i : ℤ), (amortLoop r p k b i).length = k := by
  intro k
  induction k with
  | zero => intro b i; rfl
  | succ k ih => intro b i; simp [amortLoop, ih]

lemma amortLoop_ne_nil (r p : ℚ) (k : ℕ) (b : ℚ) (i : ℤ) (hk : k ≠ 0) :
    amortLoop r p k b i ≠ [] := by
  intro h
  have := amortLoop_length r p k b i
  rw [h] at this
  exact hk this.symm

/-- Every recorded remaining balance is `max 0 _`, hence nonnegative. -/
lemma amortLoop_balance_nonneg (r p : ℚ) :
    ∀ (k : ℕ) (b : ℚ) (i : ℤ) (e : AmortEntry),
      e ∈ amortLoop r p k b i → 0 ≤ e.remainingBalance := by
  intro k
  induction k with
  | zero => intro b i e he; simp [amortLoop] at he
  | succ k ih =>
      intro b i e he
      rw [amortLoop, List.mem_cons] at he
      rcases he with rfl | he
      · exact le_max_left 0 _
      · exact ih _ _ e he

/-- The last recorded balance is the `k`-fold iterated true balance,
floored at zero. -/
lemma amortLoop_getLast_balance (r p : ℚ) :
    ∀ (k : ℕ) (b : ℚ) (i : ℤ), ∃ e,
      (amortLoop r p (k + 1) b i).getLast? = some e ∧
        e.remainingBalance = max 0 (iterBalance r p (k + 1) b) := by
  intro k
  induction k with
  | zero =>
      intro b i
      exact ⟨⟨i, p, p - b * r, b * r, max 0 (b - (p - b * r))⟩,
        rfl, by simp [iterBalance]⟩
  | succ k ih =>
      intro b i
      obtain ⟨e, he, hbal⟩ := ih (b - (p - b * r)) (i + 1)
      refine ⟨e, ?_, hbal⟩
      rw [show amortLoop r p (k + 1 + 1) b i =
        ⟨i, p, p - b * r, b * r, max 0 (b - (p - b * r))⟩ ::
          ⟨i + 1, p, p - (b - (p - b * r)) * r, (b - (p - b * r)) * r,
            max 0 (b - (p - b * r) - (p - (b - (p - b * r)) * r))⟩ ::
          amortLoop r p k (b - (p - b * r) - (p - (b - (p - b * r)) * r))
            (i + 1 + 1) from rfl]
      rw [List.getLast?_cons_cons]
      exact he

lemma iterBalance_zero_rate (p : ℚ) :
    ∀ (k : ℕ) (b : ℚ), iterBalance 0 p k b = b - k * p := by
  intro k
  induction k with
  | zero => intro b; simp [iterBalance]
  | succ k ih => intro b; rw [iterBalance, ih]; push_cast; ring

lemma iterBalance_closed (r p : ℚ) (hr : r ≠ 0) :
    ∀ (k : ℕ) (b : ℚ),
      iterBalance r p k b = b * (1 + r) ^ k - p * ((1 + r) ^ k - 1) / r := by
  intro k
  induction k with
  | zero => intro b; simp [iterBalance]
  | succ k ih =>
      intro b
      rw [iterBalance, ih]
      field_simp
      ring

/-- With zero rate and payment `L / n`, the balance reaches exactly zero
after `n` payments. -/
lemma final_balance_zero_rate (L : ℚ) (n : ℕ) (hn : n ≠ 0) :
    iterBalance 0 (L / (n : ℚ)) n L = 0 := by
  have : (n : ℚ) ≠ 0 := Nat.cast_ne_zero.mpr hn
  rw [iterBalance_zero_rate]
  field_simp

/-- With positive monthly rate and the annuity payment, the balance
reaches exactly zero after `n` payments. -/
lemma final_balance_pos_rate (L r : ℚ) (n : ℕ) (hr : 0 < r) (hn : n ≠ 0) :
    iterBalance r (L * (r * (1 + r) ^ n) / ((1 + r) ^ n - 1)) n L = 0 := by
  have hone : (1 : ℚ) < 1 + r := by linarith
  have hpow : (1 : ℚ) < (1 + r) ^ n := one_lt_pow₀ hone hn
  have hden : (1 + r) ^ n - 1 ≠ 0 := by linarith
  rw [iterBalance_closed r _ hr.ne']
  field_simp
  ring

/-! ## Claim theorems -/

/-- C1: for every loanAmount > 0, annualRate ≥ 0, termYears > 0,
`calculate_amortization_schedule` returns exactly termYears×12 entries,
every recorded remaining balance is ≥ 0, and the final entry's remaining
balance is ≤ 0.01 (in exact arithmetic it is exactly 0: the loan is fully
amortized). -/
theorem amortization_schedule_fully_amortizes (loan rate : ℚ) (term : ℤ)
    (hloan : 0 < loan) (hrate : 0 ≤ rate) (hterm : 0 < term) :
    ∃ sched, calculate_amortization_schedule loan rate term = .ok sched ∧
      sched.length = (term * 12).toNat ∧
      (∀ e ∈ sched, 0 ≤ e.remainingBalance) ∧
      ∃ last, sched.getLast? = some last ∧ last.remainingBalance ≤ 1/100 := by
  have hn12 : (0 : ℤ) < term * 12 := by omega
  have hncast : (term * 12 : ℤ) = (((term * 12).toNat : ℕ) : ℤ) :=
    (Int.toNat_of_nonneg hn12.le).symm
  have hnne : (term * 12).toNat ≠ 0 := by omega
  obtain ⟨k, hk⟩ := Nat.exists_eq_succ_of_ne_zero hnne
  rcases eq_or_lt_of_le hrate with h0 | hpos
  · -- zero interest rate: straight-line payment loan / n
    subst h0
    have hpay := calculate_mortgage_payment_zero_rate loan term (by omega)
    refine ⟨amortLoop ((0 : ℚ) / 12) (loan / ((term * 12 : ℤ) : ℚ))
      (term * 12).toNat loan 1, ?_, ?_, ?_, ?_⟩
    · simp only [calculate_amortization_schedule, hpay]
    · exact amortLoop_length _ _ _ _ _
    · exact fun e he => amortLoop_balance_nonneg _ _ _ _ _ e he
    · rw [hk]
      obtain ⟨e, he, hbal⟩ := amortLoop_getLast_balance ((0 : ℚ) / 12)
        (loan / ((term * 12 : ℤ) : ℚ)) k loan 1
      refine ⟨e, he, ?_⟩
      have hk' : k + 1 = (term * 12).toNat := by omega
      rw [hbal, show ((0 : ℚ) / 12) = 0 by norm_num,
        show loan / ((term * 12 : ℤ) : ℚ) =
          loan / (((term * 12).toNat : ℚ)) by
            conv_lhs => rw [hncast]
            push_cast
            ring_nf,
        hk', final_balance_zero_rate loan _ hnne]
      norm_num
  · -- positive rate: annuity payment zeroes the closed-form balance
    have hr12 : 0 < rate / 12 := by positivity
    have hpay := calculate_mortgage_payment_pos_rate loan rate term hterm hpos
    have hpayval : loan * ((rate / 12) * (1 + rate / 12) ^ (term * 12 : ℤ)) /
        ((1 + rate / 12) ^ (term * 12 : ℤ) - 1) =
        loan * ((rate / 12) * (1 + rate / 12) ^ ((term * 12).toNat : ℕ)) /
          ((1 + rate / 12) ^ ((term * 12).toNat : ℕ) - 1) := by
      conv_lhs => rw [hncast, zpow_natCast]
    refine ⟨amortLoop (rate / 12)
      (loan * ((rate / 12) * (1 + rate / 12) ^ (term * 12 : ℤ)) /
        ((1 + rate / 12) ^ (term * 12 : ℤ) - 1)) (term * 12).toNat loan 1,
      ?_, ?_, ?_, ?_⟩
    · simp only [calculate_amortization_schedule, hpay]
    · exact amortLoop_length _ _ _ _ _
    · exact fun e he => amortLoop_balance_nonneg _ _ _ _ _ e he
    · rw [hk]
      obtain ⟨e, he, hbal⟩ := amortLoop_getLast_balance (rate / 12)
        (loan * ((rate / 12) * (1 + rate / 12) ^ (term * 12 : ℤ)) /
          ((1 + rate / 12) ^ (term * 12 : ℤ) - 1)) k loan 1
      refine ⟨e, he, ?_⟩
      have hk' : k + 1 = (term * 12).toNat := by omega
      rw [hbal, hpayval, hk',
        final_balance_pos_rate loan (rate / 12) ((term * 12).toNat) hr12 hnne]
      norm_num

/-- C1 witness: a concrete 1-year zero-rate loan of 1200 satisfies the
hypotheses and the conclusion. -/
theorem amortization_schedule_fully_amortizes_witness :
    ∃ sched, calculate_amortization_schedule 1200 0 1 = .ok sched ∧
      sched.length = ((1 : ℤ) * 12).toNat ∧
      (∀ e ∈ sched, 0 ≤ e.remainingBalance) ∧
      ∃ last, sched.getLast? = some last ∧ last.remainingBalance ≤ 1/100 :=
  amortization_schedule_fully_amortizes 1200 0 1 (by norm_num) (by norm_num)
    (by norm_num)

/-- C8: for every loanAmount and termYears > 0, with a zero annual
interest rate the monthly payment equals loanAmount/(termYears×12)
exactly, via the straight-line branch. -/
theorem zero_rate_payment_straight_line (loan : ℚ) (term : ℤ)
    (hterm : 0 < term) :
    calculate_mortgage_payment loan 0 term = .ok (loan / ((term : ℚ) * 12)) := by
  rw [calculate_mortgage_payment_zero_rate loan term (by omega)]
  push_cast
  ring_nf

/-- C8 witness: a 1200 loan over 1 year at rate 0 yields a payment of
exactly 100. -/
theorem zero_rate_payment_straight_line_witness :
    calculate_mortgage_payment 1200 0 1 = .ok 100 := by
  rw [zero_rate_payment_straight_line 1200 1 (by norm_num)]
  norm_num

/-- C9: `calculate_break_even_point` returns the infinite sentinel exactly
when monthlyIncome - monthlyExpenses ≤ 0 (never an exception), and
purchasePrice / (monthlyIncome - monthlyExpenses) otherwise. -/
theorem break_even_infinite_or_ratio (price income expenses : ℚ) :
    (income - expenses ≤ 0 →
      calculate_break_even_point price income expenses = .infinite) ∧
    (0 < income - expenses →
      calculate_break_even_point price income expenses =
        .months (price / (income - expenses))) := by
  constructor
  · intro h
    simp only [calculate_break_even_point]
    rw [if_pos h]
  · intro h
    simp only [calculate_break_even_point]
    rw [if_neg (not_le.mpr h)]

/-- C9 witness: income 1000 against expenses 1200 gives the infinite
sentinel; income 1000 against expenses 880 breaks even in 10 months. -/
theorem break_even_infinite_or_ratio_witness :
    calculate_break_even_point 240000 1000 1200 = .infinite ∧
    calculate_break_even_point 1200 1000 880 = .months 10 := by
  refine ⟨(break_even_infinite_or_ratio 240000 1000 1200).1 (by norm_num), ?_⟩
  rw [(break_even_infinite_or_ratio 1200 1000 880).2 (by norm_num)]
  norm_num

/-- C5 counterexample: the claim says `calculate_mortgage_payment` fails
with InvalidInputError whenever loanAmount < 0, but at
loanAmount = -100, rate = 0, termYears = 30 the code raises nothing and
returns the payment -100/360 = -5/18. -/
theorem mortgage_payment_no_invalid_input_error_counterexample :
    calculate_mortgage_payment (-100) 0 30 = .ok (-(5/18)) := by
  rw [calculate_mortgage_payment_zero_rate (-100) 30 (by norm_num)]
  norm_num

/-- C5 amended: `calculate_mortgage_payment` performs no input validation
and never raises InvalidInputError: for termYears > 0 and annualRate ≥ 0
it returns a payment without raising regardless of the sign of
loanAmount, and for termYears = 0 it fails with a ZeroDivisionError
instead. -/
theorem mortgage_payment_no_validation :
    (∀ (loan rate : ℚ) (term : ℤ), 0 < term → 0 ≤ rate →
      ∃ q, calculate_mortgage_payment loan rate term = .ok q) ∧
    (∀ loan rate : ℚ,
      calculate_mortgage_payment loan rate 0 = .error .zeroDivisionError) := by
  constructor
  · intro loan rate term hterm hrate
    rcases eq_or_lt_of_le hrate with h0 | hpos
    · exact ⟨_, by rw [← h0, calculate_mortgage_payment_zero_rate loan term (by omega)]⟩
    · exact ⟨_, calculate_mortgage_payment_pos_rate loan rate term hterm hpos⟩
  · intro loan rate
    by_cases h0 : rate / 12 = 0
    · simp [calculate_mortgage_payment, h0]
    · simp [calculate_mortgage_payment, h0]

/-- C5 amended witness: a negative loan amount over 30 years returns a
payment, and a zero-year term raises ZeroDivisionError. -/
theorem mortgage_payment_no_validation_witness :
    (∃ q, calculate_mortgage_payment (-100) (6/100) 30 = .ok q) ∧
    calculate_mortgage_payment 5 (6/100) 0 = .error .zeroDivisionError :=
  ⟨mortgage_payment_no_validation.1 (-100) (6/100) 30 (by norm_num) (by norm_num),
    mortgage_payment_no_validation.2 5 (6/100)⟩

/-- C7 counterexample: the claim says the financial risk score for
monthly_cash_flow = -250 includes a penalty of min(250/200, 4) = 4, but
min(250/200, 4) = 1.25, and with only that rule triggered the score is
5/4 = 1.25, strictly below 4 — no +4 penalty is present. -/
theorem negative_cash_flow_penalty_counterexample :
    (assess_financial_risk { monthly_cash_flow := some (-250) }).score = 5/4 ∧
    ¬(4 ≤ (assess_financial_risk { monthly_cash_flow := some (-250) }).score) := by
  constructor
  · norm_num [assess_financial_risk, cash_flow_rule, cap_rate_rule, dscr_rule,
      ltv_rule, vacancy_rule, abs_of_nonpos]
  · norm_num [assess_financial_risk, cash_flow_rule, cap_rate_rule, dscr_rule,
      ltv_rule, vacancy_rule, abs_of_nonpos]

/-- C7 amended: for a financial-data input with monthly_cash_flow = -250,
the cash-flow rule contributes the penalty min(250/200, 4) = 1.25 (not 4),
and the factor list of `assess_financial_risk` contains
"Negative cash flow". -/
theorem negative_cash_flow_penalty_value (f : FinancialData)
    (h : f.monthly_cash_flow = some (-250)) :
    cash_flow_rule (-250) = (min ((250 : ℚ)/200) 4, ["Negative cash flow"]) ∧
    min ((250 : ℚ)/200) 4 = 5/4 ∧
    "Negative cash flow" ∈ (assess_financial_risk f).factors := by
  refine ⟨?_, by norm_num, ?_⟩
  · norm_num [cash_flow_rule, abs_of_nonpos]
  · simp only [assess_financial_risk, h, cash_flow_rule, Option.getD_some]
    norm_num

/-- C7 amended witness: the concrete input with only
monthly_cash_flow = -250 present. -/
theorem negative_cash_flow_penalty_value_witness :
    cash_flow_rule (-250) = (min ((250 : ℚ)/200) 4, ["Negative cash flow"]) ∧
    min ((250 : ℚ)/200) 4 = 5/4 ∧
    "Negative cash flow" ∈
      (assess_financial_risk { monthly_cash_flow := some (-250) }).factors :=
  negative_cash_flow_penalty_value { monthly_cash_flow := some (-250) } rfl

/-- C3 (code bug evidence): the claim — following the module's own
docstring — says the recommendation generation returns an ordered list of
fixed recommendation strings, but `_generate_recommendations` ends at line
358 without a return statement (and without the property-category block),
so the Python function returns None: the `recommendations` field of the
overall assessment is None, not a list. -/
theorem recommendations_returned_as_none :
    (get_overall_risk_assessment ("2026-01-01") {} {} {} {}).map
      (fun a => a.recommendations) = .ok none := rfl

/-- C4 (code bug evidence): `calculate_property_score` divides by the used
weight total twice (once for the average, once more in the rescale), so a
strict subset whose weighted average matches the full set is inflated, not
preserved: scoring all eight features at 8 gives 8.0, while scoring only
location at 8 gives 32.0 — far outside the documented 0-10 scale — instead
of the equal score the claim asserts. -/
theorem property_score_strict_subset_inflated :
    calculate_property_score [("location", 8)] = 32 ∧
    calculate_property_score [("location", 8), ("condition", 8), ("size", 8),
      ("age", 8), ("amenities", 8), ("schools", 8), ("crime_rate", 8),
      ("future_development", 8)] = 8 ∧
    (32 : ℚ) ≠ 8 := by
  refine ⟨?_, ?_, by norm_num⟩
  · have hraw : property_score_raw [("location", 8)] = 32 := by
      simp [property_score_raw, weightOf, feature_weights]
      norm_num
    rw [calculate_property_score, hraw]
    norm_num [round2, roundHalfEven]
  · have hraw : property_score_raw [("location", 8), ("condition", 8),
        ("size", 8), ("age", 8), ("amenities", 8), ("schools", 8),
        ("crime_rate", 8), ("future_development", 8)] = 8 := by
      simp [property_score_raw, weightOf, feature_weights]
      norm_num
    rw [calculate_property_score, hraw]
    norm_num [round2, roundHalfEven]

/-- C10: for every feature-score set, the returned property score is the
banker's rounding of the raw weighted-and-rescaled score to exactly 2
decimal places (so 100 times it is an integer), and a set containing no
known feature yields exactly 0. -/
theorem property_score_rounded_and_zero_on_unknown
    (fs : List (String × ℚ)) :
    calculate_property_score fs = round2 (property_score_raw fs) ∧
    (calculate_property_score fs * 100).den = 1 ∧
    ((∀ p ∈ fs, weightOf p.1 = none) → calculate_property_score fs = 0) := by
  refine ⟨rfl, ?_, ?_⟩
  · have h : calculate_property_score fs * 100 =
        ((roundHalfEven (property_score_raw fs * 100) : ℤ) : ℚ) := by
      unfold calculate_property_score round2
      field_simp
    rw [h, Rat.den_intCast]
  · intro h
    have hover : (fs.map (fun p => match weightOf p.1 with
        | some w => p.2 * w
        | none => 0)).sum = 0 := by
      apply List.sum_eq_zero
      intro x hx
      obtain ⟨p, hp, rfl⟩ := List.mem_map.mp hx
      simp [h p hp]
    have htot : (fs.map (fun p => match weightOf p.1 with
        | some w => w
        | none => 0)).sum = 0 := by
      apply List.sum_eq_zero
      intro x hx
      obtain ⟨p, hp, rfl⟩ := List.mem_map.mp hx
      simp [h p hp]
    unfold calculate_property_score property_score_raw
    rw [hover, htot]
    norm_num [round2, roundHalfEven]

/-- C10 witness: a set with only the unknown feature "pool" scores
exactly 0. -/
theorem property_score_rounded_and_zero_on_unknown_witness :
    calculate_property_score [("pool", 3)] = 0 :=
  (property_score_rounded_and_zero_on_unknown [("pool", 3)]).2.2 (by decide)

/-- The clamp `min(max(s, 0), 10)` always lands in [0, 10]. -/
lemma clamp_bounds (s : ℚ) : 0 ≤ min (max s 0) 10 ∧ min (max s 0) 10 ≤ 10 :=
  ⟨le_min (le_max_right s 0) (by norm_num), min_le_right _ _⟩

lemma market_score_bounds (m : MarketData) :
    0 ≤ (assess_market_risk m).score ∧ (assess_market_risk m).score ≤ 10 :=
  clamp_bounds _

lemma financial_score_bounds (f : FinancialData) :
    0 ≤ (assess_financial_risk f).score ∧ (assess_financial_risk f).score ≤ 10 :=
  clamp_bounds _

lemma property_score_bounds (p : RiskPropertyData) :
    0 ≤ (assess_property_risk p).score ∧ (assess_property_risk p).score ≤ 10 :=
  clamp_bounds _

lemma location_ok_bounds (l : LocationData) (r : RiskResult)
    (h : assess_location_risk l = .ok r) : 0 ≤ r.score ∧ r.score ≤ 10 := by
  unfold assess_location_risk at h
  split at h
  · exact absurd h (by simp)
  · simp only [Except.ok.injEq] at h
    subst h
    exact clamp_bounds _

lemma overall_ok_bounds (today : String) (p : RiskPropertyData)
    (f : FinancialData) (l : LocationData) (m : MarketData)
    (a : OverallAssessment)
    (h : get_overall_risk_assessment today p f l m = .ok a) :
    0 ≤ a.overall_score ∧ a.overall_score ≤ 10 := by
  unfold get_overall_risk_assessment at h
  split at h
  · exact absurd h (by simp)
  · rename_i locR heq
    simp only [Except.ok.injEq] at h
    subst h
    obtain ⟨hl1, hl2⟩ := location_ok_bounds l locR heq
    obtain ⟨hm1, hm2⟩ := market_score_bounds m
    obtain ⟨hf1, hf2⟩ := financial_score_bounds f
    obtain ⟨hp1, hp2⟩ := property_score_bounds p
    constructor
    · dsimp only
      linarith
    · dsimp only
      linarith

/-- C2: for arbitrary (including extreme or negative) inputs, every
category risk score lies in [0, 10] (for the location assessor: whenever
it returns rather than raising the crime-rule ZeroDivisionError), and the
overall weighted score (weights 0.3/0.3/0.25/0.15) also lies in [0, 10]. -/
theorem risk_scores_within_bounds (m : MarketData) (l : LocationData)
    (f : FinancialData) (p : RiskPropertyData) (today : String) :
    (0 ≤ (assess_market_risk m).score ∧ (assess_market_risk m).score ≤ 10) ∧
    (∀ r, assess_location_risk l = .ok r → 0 ≤ r.score ∧ r.score ≤ 10) ∧
    (0 ≤ (assess_financial_risk f).score ∧
      (assess_financial_risk f).score ≤ 10) ∧
    (0 ≤ (assess_property_risk p).score ∧
      (assess_property_risk p).score ≤ 10) ∧
    (∀ a, get_overall_risk_assessment today p f l m = .ok a →
      0 ≤ a.overall_score ∧ a.overall_score ≤ 10) :=
  ⟨market_score_bounds m, fun r hr => location_ok_bounds l r hr,
    financial_score_bounds f, property_score_bounds p,
    fun a ha => overall_ok_bounds today p f l m a ha⟩

/-- C2 witness: at the all-defaults inputs the location assessor returns
score 0 and the overall assessment has weighted score 13/20, both inside
[0, 10]. -/
theorem risk_scores_within_bounds_witness :
    (0 ≤ (assess_market_risk {}).score ∧ (assess_market_risk {}).score ≤ 10) ∧
    (0 ≤ (RiskResult.mk 0 [] "low").score ∧
      (RiskResult.mk 0 [] "low").score ≤ 10) ∧
    (0 ≤ (assess_financial_risk {}).score ∧
      (assess_financial_risk {}).score ≤ 10) ∧
    (0 ≤ (assess_property_risk {}).score ∧
      (assess_property_risk {}).score ≤ 10) ∧
    (0 ≤ (OverallAssessment.mk (13/20) "low" ⟨0, [], "low"⟩ ⟨0, [], "low"⟩
        ⟨2, ["Low cash flow margin"], "low"⟩ ⟨1, [], "low"⟩
        ["Low cash flow margin"] none ("2026-01-01")).overall_score ∧
      (OverallAssessment.mk (13/20) "low" ⟨0, [], "low"⟩ ⟨0, [], "low"⟩
        ⟨2, ["Low cash flow margin"], "low"⟩ ⟨1, [], "low"⟩
        ["Low cash flow margin"] none ("2026-01-01")).overall_score ≤ 10) := by
  have h := risk_scores_within_bounds {} {} {} {} "2026-01-01"
  have hloc : assess_location_risk {} = .ok ⟨0, [], "low"⟩ := by
    simp [assess_location_risk, crime_rule, flood_rule, school_rule,
      job_growth_rule, tax_trend_rule, get_risk_level]
    norm_num
  have hov : get_overall_risk_assessment ("2026-01-01") {} {} {} {} =
      .ok ⟨13/20, "low", ⟨0, [], "low"⟩, ⟨0, [], "low"⟩,
        ⟨2, ["Low cash flow margin"], "low"⟩, ⟨1, [], "low"⟩,
        ["Low cash flow margin"], none, "2026-01-01"⟩ := by
    simp [get_overall_risk_assessment, assess_market_risk,
      assess_location_risk, assess_financial_risk, assess_property_risk,
      crime_rule, flood_rule, school_rule, job_growth_rule, tax_trend_rule,
      volatility_rule, trend_rule, inventory_rule, unemployment_rule,
      cash_flow_rule, cap_rate_rule, dscr_rule, ltv_rule, vacancy_rule,
      property_age_rule, condition_rule, condition_score_map,
      special_use_rule, repairs_rule, obsolete_rule, get_risk_level,
      generate_recommendations, str_lower]
    norm_num
  exact ⟨h.1, h.2.1 _ hloc, h.2.2.1, h.2.2.2.1, h.2.2.2.2 _ hov⟩

/-- C6 counterexample: the claim says two calls with identical input
records and configuration return identical results, but `evaluate_features`
reads the current year from the clock: the same property record with
year_built = 2000 evaluates to age score 8 in 2020 and 0 in 2120. -/
theorem evaluate_features_depends_on_clock :
    evaluate_features 2020 { year_built := some 2000 } ≠
      evaluate_features 2120 { year_built := some 2000 } := by
  have h1 : evaluate_features 2020 { year_built := some 2000 } =
      [("location", 5), ("age", 8)] := by
    simp [evaluate_features, calculate_location_score, location_factor_term]
    norm_num
  have h2 : evaluate_features 2120 { year_built := some 2000 } =
      [("location", 5), ("age", 0)] := by
    simp [evaluate_features, calculate_location_score, location_factor_term]
    norm_num
  rw [h1, h2]
  simp

/-- The date-independent part of an overall risk assessment: every field
except `assessment_date`. -/
def assessment_core (a : OverallAssessment) :
    ℚ × String × RiskResult × RiskResult × RiskResult × RiskResult ×
      List String × Option (List String) :=
  (a.overall_score, a.risk_level, a.market_risk, a.location_risk,
    a.financial_risk, a.property_risk, a.risk_factors, a.recommendations)

/-- C6 amended: the core computations are deterministic functions of their
inputs and the current clock, which they genuinely read: with the clock
fixed, repeated calls agree; feature evaluation is clock-independent
whenever the record lacks year_built, and every field of the overall risk
assessment except the assessment_date stamp is clock-independent. -/
theorem computations_deterministic_given_clock :
    (∀ (y₁ y₂ : ℤ) (pd : AnalyzerPropertyData), pd.year_built = none →
      evaluate_features y₁ pd = evaluate_features y₂ pd) ∧
    (∀ (d₁ d₂ : String) (p : RiskPropertyData) (f : FinancialData)
      (l : LocationData) (m : MarketData),
      (get_overall_risk_assessment d₁ p f l m).map assessment_core =
        (get_overall_risk_assessment d₂ p f l m).map assessment_core) := by
  constructor
  · intro y₁ y₂ pd h
    simp only [evaluate_features, h]
  · intro d₁ d₂ p f l m
    cases h : assess_location_risk l with
    | error e => simp [get_overall_risk_assessment, h]
    | ok locR => simp [get_overall_risk_assessment, h, assessment_core,
        Except.map]

/-- C6 amended witness: with no year_built the feature evaluation agrees
across years, and the date-stripped overall assessment agrees across
dates. -/
theorem computations_deterministic_given_clock_witness :
    evaluate_features 2020 {} = evaluate_features 2120 {} ∧
    (get_overall_risk_assessment ("2026-01-01") {} {} {} {}).map
        assessment_core =
      (get_overall_risk_assessment ("2026-01-02") {} {} {} {}).map
        assessment_core :=
  ⟨computations_deterministic_given_clock.1 2020 2120 {} rfl,
    computations_deterministic_given_clock.2 ("2026-01-01") ("2026-01-02")
      {} {} {} {}⟩

end RealEstate
